import Mathlib

/-!
Shallow embedding of the natural-language-to-SQL pipeline in
`bot_core_logic.py` (class `SQLChatBot`), together with proofs of the
behavioural properties stated in the specification.

Strings are modelled as Lean `String`s and all character-level Python
operations (`upper`, `strip`, `split`, substring tests, `re.sub` with
the concrete patterns used by the code) are re-implemented over
`List Char`, faithful to Python semantics on the ASCII inputs the
pipeline handles.  The two external calls of the pipeline (the OpenAI
completion service and the database driver) are abstracted as oracle
inputs; everything else is transliterated from the source.
-/

namespace SqlChatBot

/-! ### Character / string utilities (Python string semantics) -/

/-- Python whitespace characters as used by `str.strip()` / `str.split()`. -/
def isPyWs (c : Char) : Bool :=
  c = ' ' || c = '\t' || c = '\n' || c = '\r' || c = '\x0b' || c = '\x0c'

/-- Python `str.strip()` on a character list. -/
def stripL (l : List Char) : List Char :=
  ((l.dropWhile isPyWs).reverse.dropWhile isPyWs).reverse

/-- Python `str.upper()` (ASCII fragment). -/
def upperL (l : List Char) : List Char := l.map Char.toUpper

/-- `prefixOfL p l` decides whether `p` is a prefix of `l`
    (Python `str.startswith`). -/
def prefixOfL : List Char → List Char → Bool
  | [], _ => true
  | _ :: _, [] => false
  | a :: as, b :: bs => a == b && prefixOfL as bs

/-- `containsSub pat l` decides whether `pat` occurs as a contiguous
    substring of `l` (Python `pat in l`). -/
def containsSub (pat : List Char) : List Char → Bool
  | [] => prefixOfL pat []
  | c :: rest => prefixOfL pat (c :: rest) || containsSub pat rest

/-- Python `str.strip()`. -/
def sstrip (s : String) : String := String.mk (stripL s.data)

/-- Python `str.upper()`. -/
def supper (s : String) : String := String.mk (upperL s.data)

/-- Python `needle in hay`. -/
def scontains (hay needle : String) : Bool := containsSub needle.data hay.data

/-- Python `s.startswith(p)`. -/
def sstarts (s p : String) : Bool := prefixOfL p.data s.data

/-! ### Safety validator (`_validate_sql`, `_is_valid_question`) -/

/-- `self.forbidden_keywords` (bot_core_logic.py line 27). -/
def forbidden_keywords : List String :=
  ["DROP", "DELETE", "INSERT", "UPDATE", "ALTER", "CREATE", "TRUNCATE"]

/-- `dangerous_functions` (bot_core_logic.py line 171). -/
def dangerous_functions : List String :=
  ["XP_CMDSHELL", "OPENROWSET", "OPENDATASOURCE", "EXEC", "EXECUTE"]

/-- Embedding of `SQLChatBot._validate_sql` (bot_core_logic.py lines 157-176). -/
def validate_sql (sql_query : String) : Bool :=
  let sql_upper := supper sql_query
  if sstarts (sstrip sql_upper) "SELECT" = false then false
  else if forbidden_keywords.any (fun k => scontains sql_upper k) then false
  else if dangerous_functions.any (fun f => scontains sql_upper f) then false
  else true

/-- `forbidden_in_question` (bot_core_logic.py line 271). -/
def forbidden_in_question : List String :=
  ["DROP", "DELETE", "INSERT", "UPDATE", "ALTER", "CREATE"]

/-- Embedding of `SQLChatBot._is_valid_question` (bot_core_logic.py
    lines 266-280). -/
def is_valid_question (question : String) : Bool :=
  let question_upper := supper question
  if forbidden_in_question.any (fun w => scontains question_upper w) then false
  else if (sstrip question).data.length < 5 then false
  else true

/-! ### Completion clean-up (`_clean_sql_response`) -/

/-- One `re.sub(pat + optional newline, '', s)` pass: removes every
    (leftmost, non-overlapping) occurrence of `pat` together with one
    directly following newline, as done by the code's patterns
    `r'```sql\n?'` and `r'```\n?'`.  A match of the empty pattern is
    treated as no match (the code only uses non-empty patterns). -/
def removePat (pat : List Char) : List Char → List Char
  | [] => []
  | c :: rest =>
    if 0 < pat.length && prefixOfL pat (c :: rest) then
      removePat pat
        (match rest.drop (pat.length - 1) with
         | '\n' :: t => t
         | l => l)
    else c :: removePat pat rest
termination_by l => l.length
decreasing_by
  · simp only [List.length_cons]
    have h1 : (rest.drop (pat.length - 1)).length ≤ rest.length := by
      rw [List.length_drop]; omega
    split
    · rename_i t ht
      have h2 : (rest.drop (pat.length - 1)).length = t.length + 1 := by
        rw [ht]; simp
      omega
    · omega
  · simp only [List.length_cons]; omega

/-- `re.sub(r'--.*$', '', s, flags=re.MULTILINE)`: on each line, cut from
    the first `--` to the end of the line (the newline itself survives). -/
def removeComments : List Char → List Char
  | [] => []
  | c :: rest =>
    if prefixOfL ('-' :: '-' :: []) (c :: rest) then
      removeComments (rest.dropWhile (fun d => d ≠ '\n'))
    else c :: removeComments rest
termination_by l => l.length
decreasing_by
  · simp only [List.length_cons]
    have := (List.dropWhile_suffix
      (l := rest) (fun d => d ≠ '\n')).sublist.length_le
    omega
  · simp only [List.length_cons]; omega

/-- Python `str.split()` (split on runs of whitespace, no empty words). -/
def pysplit : List Char → List (List Char)
  | [] => []
  | c :: rest =>
    if isPyWs c then pysplit rest
    else
      ((c :: rest).takeWhile (fun d => !(isPyWs d))) ::
        pysplit ((c :: rest).dropWhile (fun d => !(isPyWs d)))
termination_by l => l.length
decreasing_by
  · simp only [List.length_cons]; omega
  · simp only [List.length_cons]
    rename_i h
    have hd : (c :: rest).dropWhile (fun d => !(isPyWs d)) =
        rest.dropWhile (fun d => !(isPyWs d)) := by
      rw [List.dropWhile_cons]; simp [h]
    rw [hd]
    have h2 := (List.dropWhile_suffix
      (l := rest) (fun d => !(isPyWs d))).sublist.length_le
    omega

/-- Python `' '.join(s.split())`. -/
def collapseWs (l : List Char) : List Char :=
  List.intercalate [' '] (pysplit l)

/-- Embedding of `SQLChatBot._clean_sql_response` (bot_core_logic.py
    lines 143-155): strip code fences, strip `--` line comments, collapse
    all whitespace runs to single spaces, and strip the ends. -/
def clean_sql_response (s : String) : String :=
  String.mk (stripL (collapseWs (removeComments
    (removePat ("```".data) (removePat ("```sql".data) s.data)))))

/-! ### Query execution (`_execute_query`) -/

/-- A result row: an ordered association of column name to value, where a
    value is `none` for SQL NULL and `some v` for a value whose Python
    `str()` form is `v`. -/
abbrev Row := List (String × Option String)

/-- Embedding of `SQLChatBot._execute_query` (bot_core_logic.py lines
    178-199).  The database call itself is abstracted by its outcome
    `raw`: an exception (re-raised by the code) or the materialized rows,
    which the code truncates to 100. -/
def execute_query (raw : Except String (List Row)) : Except String (List Row) :=
  match raw with
  | .error e => .error e
  | .ok results => .ok (if results.length > 100 then results.take 100 else results)

/-! ### Response formatting (`_create_slack_table`, `_format_response`) -/

/-- Python `row[col]` on a row: first value bound to `col`. -/
def rowGet (row : Row) (col : String) : Option String :=
  (List.lookup col row).join

/-- A tabular-mode cell: `str(row[col])[:15] if row[col] is not None
    else 'NULL'`. -/
def cellTab (v : Option String) : String :=
  match v with
  | some s => s.take 15
  | none => "NULL"

/-- A digest-mode cell: `str(row[col]) if row[col] is not None else 'NULL'`
    (no clipping in digest mode). -/
def cellDigest (v : Option String) : String :=
  match v with
  | some s => s
  | none => "NULL"

/-- The tabular header: `" | ".join([str(col)[:15] for col in columns])`. -/
def headerStr (columns : List String) : String :=
  String.intercalate " | " (columns.map (fun c => c.take 15))

/-- One tabular data line (before its newline). -/
def rowLine (columns : List String) (row : Row) : String :=
  String.intercalate " | " (columns.map (fun c => cellTab (rowGet row c)))

/-- One digest-mode record block (`Registro {i+1}:` and the first five
    columns), bot_core_logic.py lines 236-241. -/
def digestRecord (columns : List String) (idx : Nat) (row : Row) : String :=
  "Registro " ++ toString (idx + 1) ++ ":\n" ++
  String.join ((columns.take 5).map
    (fun col => "  " ++ col ++ ": " ++ cellDigest (rowGet row col) ++ "\n")) ++
  "\n"

/-- Digest mode body (bot_core_logic.py lines 230-242), chosen when there
    are more than 5 columns. -/
def digestBody (results : List Row) (columns : List String) : String :=
  "```\nEncontré " ++ toString results.length ++ " resultados con " ++
    toString columns.length ++ " columnas.\n" ++
  "Primeras columnas: " ++ String.intercalate ", " (columns.take 5) ++ "\n" ++
  "Muestra de los primeros 3 registros:\n\n" ++
  String.join ((results.take 3).enum.map
    (fun p => digestRecord columns p.1 p.2)) ++
  "```"

/-- Tabular mode body (bot_core_logic.py lines 243-260), chosen when there
    are at most 5 columns: clipped header, dash separator sized to the
    header, at most 10 data rows, and a more-rows note. -/
def tabularBody (results : List Row) (columns : List String) : String :=
  let header := headerStr columns
  "```\n" ++ header ++ "\n" ++
  String.mk (List.replicate header.length '-') ++ "\n" ++
  String.join ((results.take 10).map (fun row => rowLine columns row ++ "\n")) ++
  (if results.length > 10 then
      "... y " ++ toString (results.length - 10) ++ " registros más\n"
    else "") ++
  "```"

/-- Embedding of `SQLChatBot._create_slack_table` (bot_core_logic.py
    lines 218-264). -/
def create_slack_table (results : List Row) (question : String) : String :=
  match results with
  | [] => "No hay datos para mostrar."
  | first_row :: _ =>
    let columns := first_row.map Prod.fst
    "*Resultados para: " ++ question ++ "*\n\n" ++
    (if columns.length > 5 then digestBody results columns
     else tabularBody results columns) ++
    "\n*Total de registros: " ++ toString results.length ++ "*"

/-- The dictionary returned by `_format_response`. -/
structure FormattedResponse where
  text : String
  sql_query : String
  row_count : Nat
deriving Repr, DecidableEq

/-- Embedding of `SQLChatBot._format_response` (bot_core_logic.py
    lines 201-216). -/
def format_response (results : List Row) (original_question sql_query : String) :
    FormattedResponse :=
  match results with
  | [] => ⟨"No encontré resultados para tu consulta.", sql_query, 0⟩
  | _ :: _ =>
    ⟨create_slack_table results original_question, sql_query, results.length⟩

/-! ### Pipeline orchestrator (`process_user_question`) -/

/-- The `{'success', 'error', 'data'}` dictionary returned by
    `process_user_question`. -/
structure Envelope where
  success : Bool
  error : Option String
  data : Option FormattedResponse
deriving Repr, DecidableEq

/-- The audit record built by `_log_interaction` (bot_core_logic.py lines
    282-293); the wall-clock timestamp is not modelled. -/
structure LogRecord where
  user_id : Option String
  question : String
  sql_query : String
  result_count : Nat
deriving Repr, DecidableEq

/-- Outcomes of the two external calls made by one pipeline run:
    `gen_sql` is the value returned by `_generate_sql_query` (`none` when
    the completion call raised; otherwise the cleaned completion text, which
    may be empty), and `exec_result` is the database driver's outcome
    (`Except.error cause` when the driver raised `cause`). -/
structure Oracles where
  gen_sql : Option String
  exec_result : Except String (List Row)

/-- One observed pipeline run: the returned envelope, the list of SQL
    strings passed to `_execute_query`, and the list of records passed to
    `_log_interaction` (in order). -/
structure PipelineRun where
  envelope : Envelope
  executed : List String
  logs : List LogRecord
deriving Repr

/-- Embedding of `SQLChatBot.process_user_question` (bot_core_logic.py
    lines 38-88).  Each stage is consulted at most once (the code has no
    retry); an exception raised by the database driver propagates out of
    `_execute_query` and is caught by the outer handler, which returns the
    `Error interno:` envelope. -/
def process_user_question (user_question : String) (user_id : Option String)
    (o : Oracles) : PipelineRun :=
  if is_valid_question user_question = false then
    ⟨⟨false, some "Pregunta no válida o contiene palabras prohibidas", none⟩,
      [], []⟩
  else
    match o.gen_sql with
    | none =>
      ⟨⟨false, some "No pude generar una consulta SQL para tu pregunta", none⟩,
        [], []⟩
    | some sql_query =>
      if sql_query = "" then
        ⟨⟨false, some "No pude generar una consulta SQL para tu pregunta", none⟩,
          [], []⟩
      else if validate_sql sql_query = false then
        ⟨⟨false, some "La consulta generada no es segura", none⟩, [], []⟩
      else
        match execute_query o.exec_result with
        | .error cause =>
          ⟨⟨false, some ("Error interno: " ++ cause), none⟩, [sql_query], []⟩
        | .ok results =>
          ⟨⟨true, none, some (format_response results user_question sql_query)⟩,
            [sql_query],
            [⟨user_id, user_question, sql_query, results.length⟩]⟩

/-! ### Schema refresh (`_load_schema`, `refresh_schema`) -/

/-- Embedding of `SQLChatBot._load_schema` (bot_core_logic.py lines
    29-36): the introspection/rendering outcome is abstracted as `intro`;
    every exception is caught and turned into the empty string. -/
def load_schema (intro : Except String String) : String :=
  match intro with
  | .ok rendered => rendered
  | .error _ => ""

/-- Embedding of `SQLChatBot.refresh_schema` (bot_core_logic.py lines
    295-303) acting on the stored `schema_prompt` field: returns the
    boolean result together with the new field value.  The `except` branch
    of the Python method is unreachable because `_load_schema` catches
    every exception, so the method always returns `True` and always
    overwrites `self.schema_prompt` with `_load_schema`'s result. -/
def refresh_schema (intro : Except String String) (_old_prompt : String) :
    Bool × String :=
  (true, load_schema intro)

/-! ### Concrete sample data for the formatter -/

/-- A 3-column, 12-row query result (one NULL cell). -/
def tallSample : List Row :=
  [[("id", some "1"), ("name", some "Ana"), ("city", some "Lima")],
   [("id", some "2"), ("name", some "Bruno"), ("city", none)],
   [("id", some "3"), ("name", some "Carla"), ("city", some "Quito")],
   [("id", some "4"), ("name", some "Diego"), ("city", some "Bogota")],
   [("id", some "5"), ("name", some "Elena"), ("city", some "Madrid")],
   [("id", some "6"), ("name", some "Fabio"), ("city", some "Roma")],
   [("id", some "7"), ("name", some "Gema"), ("city", some "Paris")],
   [("id", some "8"), ("name", some "Hugo"), ("city", some "Berlin")],
   [("id", some "9"), ("name", some "Ines"), ("city", some "Oslo")],
   [("id", some "10"), ("name", some "Juan"), ("city", some "Cusco")],
   [("id", some "11"), ("name", some "Kala"), ("city", some "La Paz")],
   [("id", some "12"), ("name", some "Luis"), ("city", some "Sucre")]]

/-- A 6-column, 3-row query result (one NULL cell, one long value). -/
def wideSample : List Row :=
  [[("c1", some "1"), ("c2", some "2"), ("c3", some "3"),
    ("c4", some "4"), ("c5", some "5"), ("c6", some "6")],
   [("c1", some "7"), ("c2", none), ("c3", some "a very long string value"),
    ("c4", some "10"), ("c5", some "11"), ("c6", some "12")],
   [("c1", some "13"), ("c2", some "14"), ("c3", some "15"),
    ("c4", some "16"), ("c5", some "17"), ("c6", some "18")]]

/-! ### Helper lemmas -/

/-- `_validate_sql` as a conjunction of its three checks. -/
theorem validate_sql_eq (s : String) :
    validate_sql s =
      (sstarts (sstrip (supper s)) "SELECT" &&
       !(forbidden_keywords.any (fun k => scontains (supper s) k)) &&
       !(dangerous_functions.any (fun f => scontains (supper s) f))) := by
  unfold validate_sql
  cases h1 : sstarts (sstrip (supper s)) "SELECT" <;>
    cases h2 : forbidden_keywords.any (fun k => scontains (supper s) k) <;>
      cases h3 : dangerous_functions.any (fun f => scontains (supper s) f) <;>
        simp [h1, h2, h3]

/-- `_is_valid_question` as a conjunction of its two checks. -/
theorem is_valid_question_eq (q : String) :
    is_valid_question q =
      (!(forbidden_in_question.any (fun w => scontains (supper q) w)) &&
       !(decide ((sstrip q).data.length < 5))) := by
  unfold is_valid_question
  cases h1 : forbidden_in_question.any (fun w => scontains (supper q) w) <;>
    by_cases h2 : (sstrip q).data.length < 5 <;> simp [h1, h2]

/-! ### Claim theorems -/

/-- C1: `_validate_sql` returns `true` for a candidate SQL string iff the
    trimmed, uppercased text starts with `SELECT` and none of the forbidden
    keywords and none of the forbidden functions occurs as a substring
    anywhere in the uppercased text; in particular the claim's three
    concrete examples evaluate as stated. -/
theorem C1_validate_sql :
    (∀ s : String, validate_sql s = true ↔
      (sstarts (sstrip (supper s)) "SELECT" = true ∧
        ∀ w ∈ forbidden_keywords ++ dangerous_functions,
          scontains (supper s) w = false)) ∧
    validate_sql "select * from t; DROP TABLE t" = false ∧
    validate_sql "Update Foo Set x=1" = false ∧
    validate_sql "SELECT * FROM Foo" = true := by
  refine ⟨fun s => ?_, by decide, by decide, by decide⟩
  rw [validate_sql_eq]
  simp only [Bool.and_eq_true, Bool.not_eq_true', List.any_eq_false,
    List.mem_append, Bool.not_eq_true]
  constructor
  · rintro ⟨⟨hA, hB⟩, hC⟩
    exact ⟨hA, fun w hw => hw.elim (fun h => hB w h) (fun h => hC w h)⟩
  · rintro ⟨hA, hall⟩
    exact ⟨⟨hA, fun w hw => hall w (Or.inl hw)⟩, fun w hw => hall w (Or.inr hw)⟩

/-- C6: `_is_valid_question` returns `false` iff the trimmed length is
    below 5 or the uppercased question contains a forbidden keyword as a
    substring; the substring match also fires inside longer identifiers
    such as `UPDATED_AT`. -/
theorem C6_is_valid_question :
    (∀ q : String, is_valid_question q = false ↔
      ((sstrip q).data.length < 5 ∨
        ∃ w ∈ forbidden_in_question, scontains (supper q) w = true)) ∧
    is_valid_question "does UPDATED_AT change?" = false := by
  refine ⟨fun q => ?_, by decide⟩
  constructor
  · intro h
    by_cases hl : (sstrip q).data.length < 5
    · exact Or.inl hl
    · right
      rw [is_valid_question_eq] at h
      rw [decide_eq_false hl] at h
      simp only [Bool.not_false, Bool.and_true, Bool.not_eq_false'] at h
      exact List.any_eq_true.mp h
  · intro h
    rw [is_valid_question_eq]
    rcases h with hl | ⟨w, hw, hc⟩
    · rw [decide_eq_true hl]
      simp
    · have ha : forbidden_in_question.any (fun w => scontains (supper q) w)
          = true := List.any_eq_true.mpr ⟨w, hw, hc⟩
      simp [ha]

/-- C7: `_execute_query` always returns at most 100 rows on a successful
    raw result — the first 100 of them — and a raw result of 150 rows is
    truncated to exactly 100 without this being an error. -/
theorem C7_row_cap :
    (∀ raw : List Row, ∃ rs, execute_query (Except.ok raw) = Except.ok rs ∧
        rs.length ≤ 100 ∧ rs = raw.take 100) ∧
    (∀ raw : List Row, raw.length = 150 →
        ∃ rs, execute_query (Except.ok raw) = Except.ok rs ∧
          rs.length = 100) := by
  constructor
  · intro raw
    by_cases h : raw.length > 100
    · exact ⟨raw.take 100, by simp [execute_query, h],
        by simp [List.length_take], rfl⟩
    · refine ⟨raw, by simp [execute_query, h], by omega, ?_⟩
      rw [List.take_of_length_le (by omega)]
  · intro raw h
    have h' : raw.length > 100 := by omega
    exact ⟨raw.take 100, by simp [execute_query, h'],
      by simp [List.length_take]; omega⟩

/-- Witness for C7: a raw result of 150 empty rows is truncated to 100. -/
theorem C7_row_cap_witness :
    ∃ rs, execute_query (Except.ok (List.replicate 150 ([] : Row)))
        = Except.ok rs ∧ rs.length = 100 :=
  C7_row_cap.2 (List.replicate 150 []) (by simp)

/-- C4 (code bug): when schema introspection fails, `refresh_schema` does
    NOT report failure and does NOT keep the old context — `_load_schema`
    catches the exception and returns the empty string, so for every
    failure cause and every previously stored prompt the method returns
    `true` and overwrites the stored prompt with `""`. -/
theorem C4_failed_refresh_clobbers_schema (e old : String) :
    refresh_schema (Except.error e) old = (true, "") := rfl

/-- C2: `_execute_query` is reached only after the question passed
    `_is_valid_question` and the synthesized SQL passed `_validate_sql`;
    it is then invoked exactly once with that SQL (no retry). -/
theorem C2_executor_gated (q : String) (uid : Option String) (o : Oracles)
    (h : (process_user_question q uid o).executed ≠ []) :
    is_valid_question q = true ∧
    ∃ sql, o.gen_sql = some sql ∧ validate_sql sql = true ∧
      (process_user_question q uid o).executed = [sql] := by
  rcases o with ⟨gen, ex⟩
  by_cases h1 : is_valid_question q = false
  · simp [process_user_question, h1] at h
  · rcases gen with _ | sql
    · simp [process_user_question, h1] at h
    · by_cases h2 : sql = ""
      · simp [process_user_question, h1, h2] at h
      · by_cases h3 : validate_sql sql = false
        · simp [process_user_question, h1, h2, h3] at h
        · refine ⟨by simpa using h1, sql, rfl, by simpa using h3, ?_⟩
          rcases hex : execute_query ex with e | rows <;>
            simp [process_user_question, h1, h2, h3, hex]

/-- Witness for C2: a concrete run that reaches the executor. -/
theorem C2_executor_gated_witness :
    is_valid_question "show all customers" = true ∧
    ∃ sql, (Oracles.mk (some "SELECT * FROM Customers")
        (Except.ok [])).gen_sql = some sql ∧ validate_sql sql = true ∧
      (process_user_question "show all customers" none
        (Oracles.mk (some "SELECT * FROM Customers")
          (Except.ok []))).executed = [sql] :=
  C2_executor_gated "show all customers" none
    (Oracles.mk (some "SELECT * FROM Customers") (Except.ok [])) (by decide)

/-- C3 (amended): `process_user_question` emits exactly one audit record
    on the success path and none on any failure exit — the log count
    equals 1 exactly when the returned envelope is a success. -/
theorem C3_log_iff_success (q : String) (uid : Option String) (o : Oracles) :
    (process_user_question q uid o).logs.length =
      (if (process_user_question q uid o).envelope.success = true
       then 1 else 0) := by
  rcases o with ⟨gen, ex⟩
  by_cases h1 : is_valid_question q = false
  · simp [process_user_question, h1]
  · rcases gen with _ | sql
    · simp [process_user_question, h1]
    · by_cases h2 : sql = ""
      · simp [process_user_question, h1, h2]
      · by_cases h3 : validate_sql sql = false
        · simp [process_user_question, h1, h2, h3]
        · rcases hex : execute_query ex with e | rows <;>
            simp [process_user_question, h1, h2, h3, hex]

/-- C3 counterexample: the invalid-question failure exit emits no audit
    record at all (the claim demands exactly one on every exit path). -/
theorem C3_counterexample :
    (process_user_question "hi" none
        (Oracles.mk (some "SELECT 1") (Except.ok []))).logs.length = 0 ∧
    (process_user_question "hi" none
        (Oracles.mk (some "SELECT 1") (Except.ok []))).envelope.success
      = false := by
  constructor <;> decide

/-- C5 (amended): when the database driver fails with `cause` on a run
    that passed both validation gates, the user-facing envelope carries
    the message `"Error interno: "` followed by the raw cause — the raw
    driver/exception text IS part of the user-facing message. -/
theorem C5_exec_error_message (q : String) (uid : Option String)
    (sql cause : String) (h1 : is_valid_question q = true)
    (h2 : sql ≠ "") (h3 : validate_sql sql = true) :
    (process_user_question q uid
        (Oracles.mk (some sql) (Except.error cause))).envelope
      = ⟨false, some ("Error interno: " ++ cause), none⟩ := by
  have h1' : ¬ is_valid_question q = false := by simp [h1]
  have h3' : ¬ validate_sql sql = false := by simp [h3]
  simp [process_user_question, h1', h2, h3', execute_query]

/-- Witness for C5 (amended) at a concrete failing driver call. -/
theorem C5_exec_error_message_witness :
    (process_user_question "show all customers" none
        (Oracles.mk (some "SELECT * FROM Customers")
          (Except.error "pyodbc connection refused"))).envelope
      = ⟨false, some ("Error interno: " ++ "pyodbc connection refused"),
          none⟩ :=
  C5_exec_error_message "show all customers" none "SELECT * FROM Customers"
    "pyodbc connection refused" (by decide) (by decide) (by decide)

/-- C5 counterexample: the raw driver cause occurs verbatim inside the
    user-facing error message, refuting the claim that no raw
    driver/exception internals reach the user. -/
theorem C5_counterexample :
    (process_user_question "show all customers" none
        (Oracles.mk (some "SELECT * FROM Customers")
          (Except.error "pyodbc driver: connection refused"))).envelope.error
      = some "Error interno: pyodbc driver: connection refused" ∧
    scontains "Error interno: pyodbc driver: connection refused"
      "pyodbc driver: connection refused" = true := by
  constructor <;> decide

/-- C10: every envelope returned by `process_user_question` is in exactly
    one of the two shapes: success with no error and some data, or failure
    with no data and some error message. -/
theorem C10_envelope_shape (q : String) (uid : Option String) (o : Oracles) :
    ((process_user_question q uid o).envelope.success = true ∧
      (process_user_question q uid o).envelope.error = none ∧
      ∃ d, (process_user_question q uid o).envelope.data = some d) ∨
    ((process_user_question q uid o).envelope.success = false ∧
      (process_user_question q uid o).envelope.data = none ∧
      ∃ m, (process_user_question q uid o).envelope.error = some m) := by
  rcases o with ⟨gen, ex⟩
  by_cases h1 : is_valid_question q = false
  · right; simp [process_user_question, h1]
  · rcases gen with _ | sql
    · right; simp [process_user_question, h1]
    · by_cases h2 : sql = ""
      · right; simp [process_user_question, h1, h2]
      · by_cases h3 : validate_sql sql = false
        · right; simp [process_user_question, h1, h2, h3]
        · rcases hex : execute_query ex with e | rows
          · right; simp [process_user_question, h1, h2, h3, hex]
          · left; simp [process_user_question, h1, h2, h3, hex]

set_option maxRecDepth 20000 in
/-- C8: the response formatter is a total function with: the fixed
    no-results sentence on zero rows; a title prefix and a final
    total-row-count line on every non-empty rendering; digest mode (row and
    column counts, first 5 column names, up to 3 sample records over the
    first 5 columns) when the first row has more than 5 columns; tabular
    mode (clipped header, dash separator sized to the header, exactly
    `min 10 n` data rows and a more-rows note when more than 10 rows
    exist); the two concrete renderings (6 columns × 3 rows, and
    3 columns × 12 rows showing exactly 10 data rows plus a `2 más`
    notice with a `NULL` sentinel) are verified character-for-character. -/
theorem C8_formatter :
    (∀ q : String, create_slack_table [] q = "No hay datos para mostrar.") ∧
    (∀ (q : String) (r : Row) (rest : List Row), ∃ body,
      create_slack_table (r :: rest) q =
        "*Resultados para: " ++ q ++ "*\n\n" ++ body ++
        "\n*Total de registros: " ++ toString (r :: rest).length ++ "*") ∧
    (∀ (q : String) (r : Row) (rest : List Row),
      5 < (r.map Prod.fst).length →
      create_slack_table (r :: rest) q =
        "*Resultados para: " ++ q ++ "*\n\n" ++
        ("```\nEncontré " ++ toString (r :: rest).length ++
          " resultados con " ++ toString (r.map Prod.fst).length ++
          " columnas.\n" ++
          "Primeras columnas: " ++
          String.intercalate ", " ((r.map Prod.fst).take 5) ++ "\n" ++
          "Muestra de los primeros 3 registros:\n\n" ++
          String.join (((r :: rest).take 3).enum.map
            (fun p => digestRecord (r.map Prod.fst) p.1 p.2)) ++ "```") ++
        "\n*Total de registros: " ++ toString (r :: rest).length ++ "*" ∧
      ((r :: rest).take 3).length ≤ 3) ∧
    (∀ (q : String) (r : Row) (rest : List Row),
      (r.map Prod.fst).length ≤ 5 → 10 < (r :: rest).length →
      create_slack_table (r :: rest) q =
        "*Resultados para: " ++ q ++ "*\n\n" ++
        ("```\n" ++ headerStr (r.map Prod.fst) ++ "\n" ++
          String.mk (List.replicate (headerStr (r.map Prod.fst)).length '-')
          ++ "\n" ++
          String.join (((r :: rest).take 10).map
            (fun row => rowLine (r.map Prod.fst) row ++ "\n")) ++
          ("... y " ++ toString ((r :: rest).length - 10) ++
            " registros más\n") ++ "```") ++
        "\n*Total de registros: " ++ toString (r :: rest).length ++ "*" ∧
      ((r :: rest).take 10).length = 10) ∧
    create_slack_table wideSample "wide query" =
      "*Resultados para: wide query*\n\n```\nEncontré 3 resultados con 6 columnas.\nPrimeras columnas: c1, c2, c3, c4, c5\nMuestra de los primeros 3 registros:\n\nRegistro 1:\n  c1: 1\n  c2: 2\n  c3: 3\n  c4: 4\n  c5: 5\n\nRegistro 2:\n  c1: 7\n  c2: NULL\n  c3: a very long string value\n  c4: 10\n  c5: 11\n\nRegistro 3:\n  c1: 13\n  c2: 14\n  c3: 15\n  c4: 16\n  c5: 17\n\n```\n*Total de registros: 3*" ∧
    create_slack_table tallSample "list customers" =
      "*Resultados para: list customers*\n\n```\nid | name | city\n----------------\n1 | Ana | Lima\n2 | Bruno | NULL\n3 | Carla | Quito\n4 | Diego | Bogota\n5 | Elena | Madrid\n6 | Fabio | Roma\n7 | Gema | Paris\n8 | Hugo | Berlin\n9 | Ines | Oslo\n10 | Juan | Cusco\n... y 2 registros más\n```\n*Total de registros: 12*" := by
  refine ⟨fun q => rfl, fun q r rest => ?_, fun q r rest h5 => ?_,
    fun q r rest hc hr => ?_, by decide, by decide⟩
  · exact ⟨_, rfl⟩
  · refine ⟨?_, le_trans (List.length_take_le _ _) (le_refl 3)⟩
    simp only [create_slack_table]
    rw [if_pos (by omega : (r.map Prod.fst).length > 5)]
    rfl
  · refine ⟨?_, ?_⟩
    swap
    · rw [List.length_take]
      simp only [List.length_cons] at hr ⊢
      omega
    simp only [create_slack_table]
    rw [if_neg (by omega : ¬ (r.map Prod.fst).length > 5)]
    simp only [tabularBody]
    rw [if_pos (by simpa using hr : (r :: rest).length > 10)]

/-- Witness for C8: both mode-specific conjuncts applied at the concrete
    samples, with their column/row-count hypotheses discharged there. -/
theorem C8_formatter_witness :
    (create_slack_table wideSample "wq" =
        "*Resultados para: " ++ "wq" ++ "*\n\n" ++
        ("```\nEncontré " ++ toString wideSample.length ++
          " resultados con " ++
          toString ((wideSample.headD []).map Prod.fst).length ++
          " columnas.\n" ++
          "Primeras columnas: " ++
          String.intercalate ", "
            (((wideSample.headD []).map Prod.fst).take 5) ++ "\n" ++
          "Muestra de los primeros 3 registros:\n\n" ++
          String.join ((wideSample.take 3).enum.map
            (fun p => digestRecord ((wideSample.headD []).map Prod.fst)
              p.1 p.2)) ++ "```") ++
        "\n*Total de registros: " ++ toString wideSample.length ++ "*" ∧
      (wideSample.take 3).length ≤ 3) ∧
    ((tallSample.take 10).length = 10) := by
  constructor
  · have h := C8_formatter.2.2.1 "wq" (wideSample.headD [])
      (wideSample.drop 1) (by decide)
    exact h
  · have h := C8_formatter.2.2.2.1 "lc" (tallSample.headD [])
      (tallSample.drop 1) (by decide) (by decide)
    exact h.2

/-! ### Lemmas for the clean-up normalization (C9) -/

/-- `prefixOfL` decides `List.IsPrefix`. -/
theorem prefixOfL_iff (p l : List Char) : prefixOfL p l = true ↔ p <+: l := by
  induction p generalizing l with
  | nil => simp [prefixOfL, List.nil_prefix]
  | cons a as ih =>
    cases l with
    | nil => simp [prefixOfL]
    | cons b bs =>
      rw [prefixOfL]
      simp only [Bool.and_eq_true, beq_iff_eq, List.cons_prefix_cons]
      exact and_congr Iff.rfl (ih bs)

/-- `containsSub` decides `List.IsInfix`. -/
theorem containsSub_iff (p l : List Char) :
    containsSub p l = true ↔ p <:+: l := by
  induction l with
  | nil => simp [containsSub, prefixOfL_iff, List.prefix_nil, List.infix_nil]
  | cons c rest ih =>
    rw [containsSub]
    simp only [Bool.or_eq_true, prefixOfL_iff, ih, List.infix_cons_iff]

/-- A pattern that does not occur is not removed: the fence-removal pass
    is the identity. -/
theorem removePat_no_occ (pat l : List Char)
    (h : containsSub pat l = false) : removePat pat l = l := by
  induction l with
  | nil => rw [removePat]
  | cons c rest ih =>
    rw [containsSub] at h
    simp only [Bool.or_eq_false_iff] at h
    rw [removePat, h.1, Bool.and_false]
    simp [ih h.2]

/-- If `--` does not occur, the comment-removal pass is the identity. -/
theorem removeComments_no_occ (l : List Char)
    (h : containsSub ('-' :: '-' :: []) l = false) :
    removeComments l = l := by
  induction l with
  | nil => rw [removeComments]
  | cons c rest ih =>
    rw [containsSub] at h
    simp only [Bool.or_eq_false_iff] at h
    rw [removeComments, h.1]
    simp [ih h.2]

/-- `takeWhile` over a block of satisfying characters followed by a
    failing one returns exactly the block. -/
theorem takeWhile_append_stop (p : Char → Bool) (w : List Char) (a : Char)
    (t : List Char) (hw : ∀ c ∈ w, p c = true) (ha : p a = false) :
    (w ++ a :: t).takeWhile p = w := by
  induction w with
  | nil => simp [List.takeWhile_cons, ha]
  | cons b w' ih =>
    have hb : p b = true := hw b (List.mem_cons_self b w')
    simp only [List.cons_append, List.takeWhile_cons, hb, if_true]
    rw [ih (fun c hc => hw c (List.mem_cons_of_mem b hc))]

/-- `dropWhile` counterpart of `takeWhile_append_stop`. -/
theorem dropWhile_append_stop (p : Char → Bool) (w : List Char) (a : Char)
    (t : List Char) (hw : ∀ c ∈ w, p c = true) (ha : p a = false) :
    (w ++ a :: t).dropWhile p = a :: t := by
  induction w with
  | nil => simp [List.dropWhile_cons, ha]
  | cons b w' ih =>
    have hb : p b = true := hw b (List.mem_cons_self b w')
    simp only [List.cons_append, List.dropWhile_cons, hb, if_true]
    exact ih (fun c hc => hw c (List.mem_cons_of_mem b hc))

/-- `takeWhile` of an all-satisfying list is the list. -/
theorem takeWhile_all (p : Char → Bool) (w : List Char)
    (hw : ∀ c ∈ w, p c = true) : w.takeWhile p = w := by
  induction w with
  | nil => rfl
  | cons b w' ih =>
    have hb : p b = true := hw b (List.mem_cons_self b w')
    simp only [List.takeWhile_cons, hb, if_true]
    rw [ih (fun c hc => hw c (List.mem_cons_of_mem b hc))]

/-- `dropWhile` of an all-satisfying list is empty. -/
theorem dropWhile_all (p : Char → Bool) (w : List Char)
    (hw : ∀ c ∈ w, p c = true) : w.dropWhile p = [] := by
  induction w with
  | nil => rfl
  | cons b w' ih =>
    have hb : p b = true := hw b (List.mem_cons_self b w')
    simp only [List.dropWhile_cons, hb, if_true]
    exact ih (fun c hc => hw c (List.mem_cons_of_mem b hc))

/-- Every word produced by `pysplit` is non-empty and whitespace-free. -/
theorem pysplit_sound (l : List Char) :
    ∀ w ∈ pysplit l, w ≠ [] ∧ ∀ c ∈ w, isPyWs c = false := by
  induction l using pysplit.induct with
  | case1 => intro w hw; rw [pysplit] at hw; cases hw
  | case2 c rest h ih =>
    intro w hw
    rw [pysplit] at hw
    rw [if_pos h] at hw
    exact ih w hw
  | case3 c rest h ih =>
    intro w hw
    rw [pysplit] at hw
    rw [if_neg h] at hw
    rw [List.mem_cons] at hw
    rcases hw with hw | hw
    all_goals try subst hw
    · constructor
      · rw [List.takeWhile_cons]
        have hb : (!(isPyWs c)) = true := by
          cases hx : isPyWs c
          · rfl
          · exact absurd hx h
        rw [hb]
        simp
      · intro d hd
        have hm := List.mem_takeWhile_imp hd
        cases hx : isPyWs d
        · rfl
        · rw [hx] at hm; cases hm
    · exact ih w hw

/-- Every word produced by `pysplit` is an infix of the input. -/
theorem pysplit_words_within (l : List Char) : ∀ w ∈ pysplit l, w <:+: l := by
  induction l using pysplit.induct with
  | case1 => intro w hw; rw [pysplit] at hw; cases hw
  | case2 c rest h ih =>
    intro w hw
    rw [pysplit] at hw
    rw [if_pos h] at hw
    exact List.infix_cons (ih w hw)
  | case3 c rest h ih =>
    intro w hw
    rw [pysplit] at hw
    rw [if_neg h] at hw
    rw [List.mem_cons] at hw
    rcases hw with hw | hw
    all_goals try subst hw
    · exact (List.takeWhile_prefix _).isInfix
    · exact (ih w hw).trans (List.dropWhile_suffix _).isInfix

/-- `List.intercalate` on the empty list of words. -/
theorem intercalate_none :
    List.intercalate [' '] ([] : List (List Char)) = [] := by
  simp [List.intercalate]

/-- `List.intercalate` on a singleton. -/
theorem intercalate_single (w : List Char) :
    List.intercalate [' '] [w] = w := by
  simp [List.intercalate]

/-- `List.intercalate` on two or more lists. -/
theorem intercalate_cons2 (w w2 : List Char) (ws : List (List Char)) :
    List.intercalate [' '] (w :: w2 :: ws) =
      w ++ ' ' :: List.intercalate [' '] (w2 :: ws) := by
  simp [List.intercalate, List.intersperse]

/-- `pysplit` of a single non-empty whitespace-free word. -/
theorem pysplit_word (w : List Char) (h0 : w ≠ [])
    (hw : ∀ c ∈ w, isPyWs c = false) : pysplit w = [w] := by
  cases w with
  | nil => cases h0 rfl
  | cons c w' =>
    have hall : ∀ d ∈ c :: w', (!(isPyWs d)) = true := by
      intro d hd
      rw [hw d hd]
      rfl
    have hc : ¬ isPyWs c = true := by
      rw [hw c (List.mem_cons_self c w')]
      exact Bool.false_ne_true
    rw [pysplit, if_neg hc, takeWhile_all _ _ hall, dropWhile_all _ _ hall,
      pysplit]

/-- `pysplit` of a word, a space, and a remainder. -/
theorem pysplit_word_append (w t : List Char) (h0 : w ≠ [])
    (hw : ∀ c ∈ w, isPyWs c = false) :
    pysplit (w ++ ' ' :: t) = w :: pysplit t := by
  cases w with
  | nil => cases h0 rfl
  | cons c w' =>
    have hall : ∀ d ∈ c :: w', (!(isPyWs d)) = true := by
      intro d hd
      rw [hw d hd]
      rfl
    have hc : ¬ isPyWs c = true := by
      rw [hw c (List.mem_cons_self c w')]
      exact Bool.false_ne_true
    have hsp : (!(isPyWs ' ')) = false := by decide
    rw [List.cons_append, pysplit, if_neg hc, ← List.cons_append,
      takeWhile_append_stop _ _ _ _ hall hsp,
      dropWhile_append_stop _ _ _ _ hall hsp, pysplit]
    rw [if_pos (by decide : isPyWs ' ' = true)]

/-- `pysplit` is a retraction of `intercalate [' ']` on lists of
    non-empty whitespace-free words. -/
theorem pysplit_intercalate (ws : List (List Char))
    (h : ∀ w ∈ ws, w ≠ [] ∧ ∀ c ∈ w, isPyWs c = false) :
    pysplit (List.intercalate [' '] ws) = ws := by
  induction ws with
  | nil => rw [intercalate_none, pysplit]
  | cons w rest ih =>
    have hw := h w (List.mem_cons_self w rest)
    cases rest with
    | nil => rw [intercalate_single, pysplit_word w hw.1 hw.2]
    | cons w2 rest' =>
      rw [intercalate_cons2, pysplit_word_append w _ hw.1 hw.2,
        ih (fun v hv => h v (List.mem_cons_of_mem w hv))]

/-- Whitespace collapsing is idempotent. -/
theorem collapseWs_idem (l : List Char) :
    collapseWs (collapseWs l) = collapseWs l := by
  unfold collapseWs
  rw [pysplit_intercalate (pysplit l) (pysplit_sound l)]

/-- A space-free prefix of `w ++ ' ' :: t` is a prefix of `w`. -/
theorem prefix_append_sep (pat w t : List Char) (hp : ' ' ∉ pat)
    (h : pat <+: w ++ ' ' :: t) : pat <+: w := by
  induction pat generalizing w with
  | nil => exact List.nil_prefix
  | cons a p ih =>
    cases w with
    | nil =>
      rw [List.nil_append, List.cons_prefix_cons] at h
      exact absurd (h.1 ▸ List.mem_cons_self a p) hp
    | cons b w' =>
      rw [List.cons_append, List.cons_prefix_cons] at h
      rw [List.cons_prefix_cons]
      exact ⟨h.1, ih w' (fun hm => hp (List.mem_cons_of_mem a hm)) h.2⟩

/-- A space-free infix of `w ++ ' ' :: t` lies inside `w` or inside `t`. -/
theorem infix_append_sep (pat w t : List Char) (hp : ' ' ∉ pat)
    (h : pat <:+: w ++ ' ' :: t) : pat <:+: w ∨ pat <:+: t := by
  induction w with
  | nil =>
    rw [List.nil_append, List.infix_cons_iff] at h
    rcases h with h | h
    · cases pat with
      | nil => exact Or.inl (List.infix_refl [])
      | cons a p =>
        rw [List.cons_prefix_cons] at h
        exact absurd (h.1 ▸ List.mem_cons_self a p) hp
    · exact Or.inr h
  | cons b w' ih =>
    rw [List.cons_append, List.infix_cons_iff] at h
    rcases h with h | h
    · exact Or.inl (prefix_append_sep pat (b :: w') t hp h).isInfix
    · rcases ih h with h' | h'
      · exact Or.inl (List.infix_cons h')
      · exact Or.inr h'

/-- A non-empty space-free infix of `intercalate [' '] ws` lies inside
    one of the words. -/
theorem infix_intercalate (pat : List Char) (ws : List (List Char))
    (hp : ' ' ∉ pat) (hne : pat ≠ [])
    (h : pat <:+: List.intercalate [' '] ws) : ∃ w ∈ ws, pat <:+: w := by
  induction ws with
  | nil =>
    rw [intercalate_none] at h
    exact absurd (List.infix_nil.mp h) hne
  | cons w rest ih =>
    cases rest with
    | nil =>
      rw [intercalate_single] at h
      exact ⟨w, List.mem_cons_self w [], h⟩
    | cons w2 rest' =>
      rw [intercalate_cons2] at h
      rcases infix_append_sep pat w _ hp h with h' | h'
      · exact ⟨w, List.mem_cons_self w _, h'⟩
      · rcases ih h' with ⟨v, hv, hh⟩
        exact ⟨v, List.mem_cons_of_mem w hv, hh⟩

/-- Whitespace collapsing cannot create an occurrence of a non-empty
    space-free pattern. -/
theorem containsSub_collapse (pat l : List Char) (hp : ' ' ∉ pat)
    (hne : pat ≠ []) (h : containsSub pat l = false) :
    containsSub pat (collapseWs l) = false := by
  cases hx : containsSub pat (collapseWs l) with
  | false => rfl
  | true =>
    exfalso
    have hinf := (containsSub_iff pat _).mp hx
    rcases infix_intercalate pat (pysplit l) hp hne hinf with ⟨w, hw, hwi⟩
    have hl : pat <:+: l := hwi.trans (pysplit_words_within l w hw)
    have := (containsSub_iff pat l).mpr hl
    rw [h] at this
    cases this

/-- A pattern cannot occur if one of its infixes does not occur. -/
theorem containsSub_mono (p q l : List Char) (hpq : p <:+: q)
    (h : containsSub p l = false) : containsSub q l = false := by
  cases hx : containsSub q l with
  | false => rfl
  | true =>
    exfalso
    have := (containsSub_iff p l).mpr (hpq.trans ((containsSub_iff q l).mp hx))
    rw [h] at this
    cases this

/-- The last character of `intercalate [' ']` over sound words is not
    whitespace. -/
theorem intercalate_last (ws : List (List Char)) :
    (∀ w ∈ ws, w ≠ [] ∧ ∀ c ∈ w, isPyWs c = false) → ws ≠ [] →
    ∃ t c, List.intercalate [' '] ws = t ++ [c] ∧ isPyWs c = false := by
  induction ws with
  | nil => intro _ hne; cases hne rfl
  | cons w rest ih =>
    intro h _
    have hw := h w (List.mem_cons_self w rest)
    cases rest with
    | nil =>
      rw [intercalate_single]
      rcases w.eq_nil_or_concat' with h0 | ⟨t, c, htc⟩
      · exact absurd h0 hw.1
      · refine ⟨t, c, htc, hw.2 c ?_⟩
        rw [htc]
        exact List.mem_append_right t (List.mem_cons_self c [])
    | cons w2 rest' =>
      rcases ih (fun v hv => h v (List.mem_cons_of_mem w hv))
          (List.cons_ne_nil w2 rest') with ⟨t, c, htc, hc⟩
      refine ⟨w ++ ' ' :: t, c, ?_, hc⟩
      rw [intercalate_cons2, htc]
      simp

/-- Stripping is the identity after whitespace collapsing. -/
theorem stripL_collapse (l : List Char) :
    stripL (collapseWs l) = collapseWs l := by
  have hsound := pysplit_sound l
  unfold collapseWs
  rcases hps : pysplit l with _ | ⟨w, rest⟩
  · rw [intercalate_none]
    rfl
  · rw [hps] at hsound
    have hw := hsound w (List.mem_cons_self w rest)
    rcases w with _ | ⟨c, w'⟩
    · exact absurd rfl hw.1
    have hc : isPyWs c = false := hw.2 c (List.mem_cons_self c w')
    have hfront : ∃ u, List.intercalate [' '] ((c :: w') :: rest)
        = c :: u := by
      cases rest with
      | nil => exact ⟨w', by rw [intercalate_single]⟩
      | cons w2 rest' =>
        exact ⟨w' ++ ' ' :: List.intercalate [' '] (w2 :: rest'),
          by rw [intercalate_cons2]; rfl⟩
    rcases hfront with ⟨u, hu⟩
    rcases intercalate_last ((c :: w') :: rest) hsound
        (List.cons_ne_nil _ _) with ⟨t, d, htd, hd⟩
    unfold stripL
    have h1 : (List.intercalate [' '] ((c :: w') :: rest)).dropWhile isPyWs
        = List.intercalate [' '] ((c :: w') :: rest) := by
      rw [hu, List.dropWhile_cons, hc]
      simp
    rw [h1, htd]
    have h2 : (t ++ [d]).reverse = d :: t.reverse := by simp
    rw [h2, List.dropWhile_cons, hd]
    simp

/-- C9: `_clean_sql_response` is idempotent on every single-line,
    code-fence-free, comment-free SELECT string. -/
theorem C9_clean_idempotent (s : String)
    (_h1 : s.data.all (fun c => c ≠ '\n') = true)
    (h2 : scontains s "```" = false)
    (h3 : scontains s "--" = false)
    (_h4 : sstarts s "SELECT" = true) :
    clean_sql_response (clean_sql_response s) = clean_sql_response s := by
  have hfence : containsSub ("```".data) s.data = false := h2
  have hcmt : containsSub ('-' :: '-' :: []) s.data = false := h3
  have hfsql : containsSub ("```sql".data) s.data = false :=
    containsSub_mono ("```".data) ("```sql".data) s.data
      ((containsSub_iff _ _).mp (by decide)) hfence
  have e1 : clean_sql_response s = String.mk (collapseWs s.data) := by
    unfold clean_sql_response
    rw [removePat_no_occ _ _ hfsql, removePat_no_occ _ _ hfence,
      removeComments_no_occ _ hcmt, stripL_collapse]
  have hf2 : containsSub ("```".data) (collapseWs s.data) = false :=
    containsSub_collapse _ _ (by decide) (by decide) hfence
  have hc2 : containsSub ('-' :: '-' :: []) (collapseWs s.data) = false :=
    containsSub_collapse _ _ (by decide) (by decide) hcmt
  have hfsql2 : containsSub ("```sql".data) (collapseWs s.data) = false :=
    containsSub_mono ("```".data) ("```sql".data) _
      ((containsSub_iff _ _).mp (by decide)) hf2
  rw [e1]
  unfold clean_sql_response
  have hdata : (String.mk (collapseWs s.data)).data = collapseWs s.data := rfl
  rw [hdata, removePat_no_occ _ _ hfsql2, removePat_no_occ _ _ hf2,
    removeComments_no_occ _ hc2, collapseWs_idem, stripL_collapse]

/-- Witness for C9 at a concrete messy-whitespace SELECT string. -/
theorem C9_clean_idempotent_witness :
    ("SELECT  *   FROM   Customers".data.all (fun c => c ≠ '\n') = true) ∧
    scontains "SELECT  *   FROM   Customers" "```" = false ∧
    scontains "SELECT  *   FROM   Customers" "--" = false ∧
    sstarts "SELECT  *   FROM   Customers" "SELECT" = true ∧
    clean_sql_response (clean_sql_response "SELECT  *   FROM   Customers")
      = clean_sql_response "SELECT  *   FROM   Customers" :=
  ⟨by decide, by decide, by decide, by decide,
    C9_clean_idempotent "SELECT  *   FROM   Customers"
      (by decide) (by decide) (by decide) (by decide)⟩

end SqlChatBot
